import Mathlib

/-!
Verification development for the GBArs ARM7TDMI emulator core.

This file gives a shallow embedding, over natural numbers, of the parts of
the emulator relevant to the memory bus, the PSR and condition evaluator,
the ALU and barrel shifter, the mode-change and exception machinery, and
the data-processing executor.  32-bit machine words are represented as
natural numbers holding the word's bit pattern (always reduced modulo
2^32 by the operations that can overflow); signed (i32) readings are made
explicit through the `i32` view.  Rust `Result` values are `Except`-like
sums, and `unimplemented!()` branches are a dedicated constructor.
-/

namespace GBArs

/-! ### Bit-level utilities for 32-bit words stored as naturals -/

/-- Two's-complement (i32) reading of a 32-bit bit pattern. -/
def i32 (a : Nat) : Int :=
  if a < 2 ^ 31 then (a : Int) else (a : Int) - 2 ^ 32

/-- Bitwise complement within 32 bits (Rust `!x` on `u32`/`i32` patterns). -/
def not32 (a : Nat) : Nat := 0xFFFFFFFF ^^^ a

/-- Rust `u32::rotate_right`: rotate the low 32 bits right by `n % 32`. -/
def rotr32 (w n : Nat) : Nat :=
  let k := n % 32
  (w % 2 ^ k) * 2 ^ (32 - k) + w / 2 ^ k

/-- Rust `i32::wrapping_shl` viewed on bit patterns: shift left by `n % 32`,
truncated to 32 bits. -/
def lsl32 (a n : Nat) : Nat := (a * 2 ^ (n % 32)) % 2 ^ 32

/-- Rust `u32`-style logical shift right by `n % 32` (`wrapping_shr` on `u32`). -/
def lsr32 (a n : Nat) : Nat := a / 2 ^ (n % 32)

/-- Rust `i32::wrapping_shr` viewed on bit patterns: arithmetic shift right
by `n % 32`, replicating bit 31. -/
def asr32 (a n : Nat) : Nat :=
  let k := n % 32
  a / 2 ^ k + (if a.testBit 31 then 2 ^ 32 - 2 ^ (32 - k) else 0)

/-! ### Error taxonomy (`src/hardware/error.rs`, enum `GbaError`) -/

/-- The closed set of emulation error kinds raised by the core. -/
inductive GbaError where
  | InvalidArmInstruction (word : Nat)
  | InvalidThumbInstruction (half : Nat)
  | ReservedArmConditionNV
  | InvalidPhysicalAddress (addr : Nat)
  | InvalidRomAccess (addr : Nat)
  | InvalidMemoryBusWidth (addr : Nat) (width : Nat)
  | InvalidUseOfR15
  | InvalidRegisterReuse (n d s m : Nat)
  | InvalidOffsetWriteBack
  | PrivilegedUserCode
  deriving DecidableEq, Repr

/-! ### Condition field (`src/hardware/cpu/armcondition.rs`) and CPSR bits -/

/-- CPSR flag and field accessors (`src/hardware/cpu/arm7tdmi/cpsr.rs`).
The CPSR is carried as the natural number holding its 32-bit pattern. -/
def CPSR.N (c : Nat) : Bool := (c &&& (1 <<< 31)) != 0

/-- Zero flag: bit 30 of the CPSR. -/
def CPSR.Z (c : Nat) : Bool := (c &&& (1 <<< 30)) != 0

/-- Carry flag: bit 29 of the CPSR. -/
def CPSR.C (c : Nat) : Bool := (c &&& (1 <<< 29)) != 0

/-- Overflow flag: bit 28 of the CPSR. -/
def CPSR.V (c : Nat) : Bool := (c &&& (1 <<< 28)) != 0

/-- The 4-bit condition field of an ARM instruction. -/
inductive ArmCondition where
  | EQ | NE | HS | LO | MI | PL | VS | VC
  | HI | LS | GE | LT | GT | LE | AL | NV
  deriving DecidableEq, Repr

/-- Decodes a 4-bit value into a condition (the source stores the field
with `#[repr(u8)]` and transmutes the 4 bits). -/
def ArmCondition.ofBits (n : Nat) : ArmCondition :=
  match n % 16 with
  | 0 => .EQ | 1 => .NE | 2 => .HS | 3 => .LO
  | 4 => .MI | 5 => .PL | 6 => .VS | 7 => .VC
  | 8 => .HI | 9 => .LS | 10 => .GE | 11 => .LT
  | 12 => .GT | 13 => .LE | 14 => .AL | _ => .NV

/-- Embeds `ArmCondition::check`: evaluates the condition field against the
given CPSR, reporting an error for the reserved condition `NV`. -/
def ArmCondition.check (c : ArmCondition) (cpsr : Nat) : Except GbaError Bool :=
  match c with
  | .EQ => .ok (CPSR.Z cpsr)
  | .NE => .ok (!CPSR.Z cpsr)
  | .HS => .ok (CPSR.C cpsr)
  | .LO => .ok (!CPSR.C cpsr)
  | .MI => .ok (CPSR.N cpsr)
  | .PL => .ok (!CPSR.N cpsr)
  | .VS => .ok (CPSR.V cpsr)
  | .VC => .ok (!CPSR.V cpsr)
  | .HI => .ok (CPSR.C cpsr && !CPSR.Z cpsr)
  | .LS => .ok (!CPSR.C cpsr || CPSR.Z cpsr)
  | .GE => .ok (CPSR.N cpsr == CPSR.V cpsr)
  | .LT => .ok (CPSR.N cpsr != CPSR.V cpsr)
  | .GT => .ok (!CPSR.Z cpsr && (CPSR.N cpsr == CPSR.V cpsr))
  | .LE => .ok (CPSR.Z cpsr || (CPSR.N cpsr != CPSR.V cpsr))
  | .AL => .ok true
  | .NV => .error GbaError.ReservedArmConditionNV

/-- The standard ARM condition table, written from the specification text
(section 4.4): EQ=Z, NE=not Z, HS=C, LO=not C, MI=N, PL=not N, VS=V,
VC=not V, HI=C and not Z, LS=not C or Z, GE: N equals V, LT: N differs
from V, GT: not Z and N equals V, LE: Z or N differs from V, AL=true.
The NV row is never consulted (the evaluator reports an error instead). -/
def specConditionTable (c : ArmCondition) (n z cf v : Bool) : Bool :=
  match c with
  | .EQ => z
  | .NE => !z
  | .HS => cf
  | .LO => !cf
  | .MI => n
  | .PL => !n
  | .VS => v
  | .VC => !v
  | .HI => cf && !z
  | .LS => !cf || z
  | .GE => n == v
  | .LT => !(n == v)
  | .GT => !z && (n == v)
  | .LE => z || !(n == v)
  | .AL => true
  | .NV => false

/-! ### ALU carry/overflow primitives
(`src/hardware/cpu/arm7tdmi/alu/mod.rs` and `.../exec/mod.rs`) -/

/-- Embeds `Arm7Tdmi::alu_add_carry_overflow`: the 32-bit sum together with
the carry flag (bit 32 of the 64-bit sum of the zero-extended operands) and
the signed-overflow flag of `i32::overflowing_add`. -/
def alu_add_carry_overflow (a b : Nat) : Nat × Bool × Bool :=
  let res64 := (a + b) % 2 ^ 64
  let c := res64.testBit 32
  let sum := i32 a + i32 b
  let v := decide (sum < -(2 ^ 31 : Int)) || decide ((2 ^ 31 : Int) ≤ sum)
  ((a + b) % 2 ^ 32, c, v)

/-- Embeds `Arm7Tdmi::alu_sub_carry_overflow`: the 32-bit difference with a
carry flag taken from bit 32 of the 64-bit wrapping difference of the
zero-extended operands, and the signed-overflow flag of
`i32::overflowing_sub`.  Inputs are 32-bit patterns (naturals below 2^32). -/
def alu_sub_carry_overflow (a b : Nat) : Nat × Bool × Bool :=
  let res64 := (a + 2 ^ 64 - b) % 2 ^ 64
  let c := res64.testBit 32
  let diff := i32 a - i32 b
  let v := decide (diff < -(2 ^ 31 : Int)) || decide ((2 ^ 31 : Int) ≤ diff)
  ((a + 2 ^ 32 - b) % 2 ^ 32, c, v)

/-! ### Physical address map (`src/hardware/memory.rs`) -/

/-- Region tags with region-local offsets (`enum PhysicalAddress`).
The source's `RegistersIO` variant is spelled `RegistersIo` here. -/
inductive PhysicalAddress where
  | BiosROM (p : Nat)
  | OnBoardWRAM (p : Nat)
  | OnChipWRAM (p : Nat)
  | RegistersIo (p : Nat)
  | PaletteRAM (p : Nat)
  | VRAM (p : Nat)
  | AttributesOBJ (p : Nat)
  | GamePak0ROM (p : Nat)
  | GamePak1ROM (p : Nat)
  | GamePak2ROM (p : Nat)
  | GamePakSRAM (p : Nat)
  | Invalid (p : Nat)
  deriving DecidableEq, Repr

/-- Embeds `PhysicalAddress::from_u32`: classifies a 32-bit address into a
region tag carrying the region-local offset, using the inclusive address
ranges of `memory.rs`. -/
def PhysicalAddress.from_u32 (p : Nat) : PhysicalAddress :=
  if p ≤ 0x00003FFF then .BiosROM p
  else if 0x02000000 ≤ p ∧ p ≤ 0x0203FFFF then .OnBoardWRAM (p - 0x02000000)
  else if 0x03000000 ≤ p ∧ p ≤ 0x03007FFF then .OnChipWRAM (p - 0x03000000)
  else if 0x04000000 ≤ p ∧ p ≤ 0x040003FE then .RegistersIo (p - 0x04000000)
  else if 0x05000000 ≤ p ∧ p ≤ 0x050003FF then .PaletteRAM (p - 0x05000000)
  else if 0x06000000 ≤ p ∧ p ≤ 0x06017FFF then .VRAM (p - 0x06000000)
  else if 0x07000000 ≤ p ∧ p ≤ 0x070003FF then .AttributesOBJ (p - 0x07000000)
  else if 0x08000000 ≤ p ∧ p ≤ 0x09FFFFFF then .GamePak0ROM (p - 0x08000000)
  else if 0x0A000000 ≤ p ∧ p ≤ 0x0BFFFFFF then .GamePak1ROM (p - 0x0A000000)
  else if 0x0C000000 ≤ p ∧ p ≤ 0x0DFFFFFF then .GamePak2ROM (p - 0x0C000000)
  else if 0x0E000000 ≤ p ∧ p ≤ 0x0E00FFFF then .GamePakSRAM (p - 0x0E000000)
  else .Invalid p

/-! ### Backing stores and width-specific accessors (`memory.rs` traits) -/

/-- Reads a little-endian 16-bit value from a byte store. -/
def readU16LE (bytes : Nat → Nat) (offs : Nat) : Nat :=
  bytes offs + (bytes (offs + 1)) * 2 ^ 8

/-- Reads a little-endian 32-bit value from a byte store. -/
def readU32LE (bytes : Nat → Nat) (offs : Nat) : Nat :=
  bytes offs + (bytes (offs + 1)) * 2 ^ 8 +
  (bytes (offs + 2)) * 2 ^ 16 + (bytes (offs + 3)) * 2 ^ 24

/-- Writes a little-endian 16-bit value, address rounded down to even. -/
def writeU16LE (bytes : Nat → Nat) (offs data : Nat) : Nat → Nat :=
  let a := offs &&& 0xFFFFFFFE
  fun i =>
    if i = a then data &&& 0xFF
    else if i = a + 1 then (data >>> 8) &&& 0xFF
    else bytes i

/-- Writes a little-endian 32-bit value, address rounded down to a
multiple of four. -/
def writeU32LE (bytes : Nat → Nat) (offs data : Nat) : Nat → Nat :=
  let a := offs &&& 0xFFFFFFFC
  fun i =>
    if i = a then data &&& 0xFF
    else if i = a + 1 then (data >>> 8) &&& 0xFF
    else if i = a + 2 then (data >>> 16) &&& 0xFF
    else if i = a + 3 then (data >>> 24) &&& 0xFF
    else bytes i

/-- Embeds `Rom8::read_byte`: the byte at the given local offset. -/
def rom8_read_byte (bytes : Nat → Nat) (offs : Nat) : Nat := bytes offs

/-- Embeds `Ram8::write_byte`: updates the byte at the given local offset. -/
def ram8_write_byte (bytes : Nat → Nat) (offs data : Nat) : Nat → Nat :=
  Function.update bytes offs data

/-- Embeds `Rom16::read_halfword`: little-endian halfword at the offset
with bit 0 masked away. -/
def rom16_read_halfword (bytes : Nat → Nat) (offs : Nat) : Nat :=
  readU16LE bytes (offs &&& 0xFFFFFFFE)

/-- Embeds `Rom32::read_word`: loads the little-endian word at the
word-aligned address.  For a misaligned offset the source computes
`w.rotate_right(8 * (offs & 0b11))` but discards the result of that
expression, so the unrotated word is what the function returns; the
discarded computation is kept here as `_rotated`. -/
def rom32_read_word (bytes : Nat → Nat) (offs : Nat) : Nat :=
  let w := readU32LE bytes (offs &&& 0xFFFFFFFC)
  let _rotated := rotr32 w (8 * (offs &&& 0b11))
  w

/-- Embeds `Ram32::write_word`: stores a little-endian word at the
word-aligned address. -/
def ram32_write_word (bytes : Nat → Nat) (offs data : Nat) : Nat → Nat :=
  writeU32LE bytes offs data

/-! ### The bus (`src/hardware/bus.rs`) -/

/-- The backing stores reachable through the bus in this embedding: the
BIOS ROM bytes, the memory-mapped register bytes and the GamePak SRAM
bytes, each as a byte map over local offsets.  The GamePak ROM needs no
store because every bus access to its mirrors is `unimplemented!()`. -/
structure Bus where
  bios : Nat → Nat
  ioregs : Nat → Nat
  sram : Nat → Nat

/-- Outcome of a bus operation: a successful value, a `GbaError`, or a
Rust `unimplemented!()` panic. -/
inductive BusOut (α : Type) where
  | ok (val : α)
  | err (e : GbaError)
  | unimpl
  deriving DecidableEq, Repr

/-- Embeds `Bus::load_word`. -/
def Bus.load_word (bus : Bus) (addr : Nat) : BusOut Nat :=
  match PhysicalAddress.from_u32 addr with
  | .BiosROM p       => .ok (rom32_read_word bus.bios p)
  | .OnBoardWRAM _   => .unimpl
  | .OnChipWRAM _    => .unimpl
  | .RegistersIo p   => .ok (rom32_read_word bus.ioregs p)
  | .PaletteRAM _    => .unimpl
  | .VRAM _          => .unimpl
  | .AttributesOBJ _ => .unimpl
  | .GamePak0ROM _   => .unimpl
  | .GamePak1ROM _   => .unimpl
  | .GamePak2ROM _   => .unimpl
  | .GamePakSRAM p   => .err (.InvalidMemoryBusWidth p 32)
  | .Invalid p       => .err (.InvalidPhysicalAddress p)

/-- Embeds `Bus::store_word`. -/
def Bus.store_word (bus : Bus) (addr data : Nat) : BusOut Bus :=
  match PhysicalAddress.from_u32 addr with
  | .BiosROM p       => .err (.InvalidRomAccess p)
  | .OnBoardWRAM _   => .unimpl
  | .OnChipWRAM _    => .unimpl
  | .RegistersIo p   => .ok { bus with ioregs := ram32_write_word bus.ioregs p data }
  | .PaletteRAM _    => .unimpl
  | .VRAM _          => .unimpl
  | .AttributesOBJ _ => .unimpl
  | .GamePak0ROM _   => .unimpl
  | .GamePak1ROM _   => .unimpl
  | .GamePak2ROM _   => .unimpl
  | .GamePakSRAM p   => .err (.InvalidMemoryBusWidth p 32)
  | .Invalid p       => .err (.InvalidPhysicalAddress p)

/-- Embeds `Bus::load_byte` (byte values are zero-extended). -/
def Bus.load_byte (bus : Bus) (addr : Nat) : BusOut Nat :=
  match PhysicalAddress.from_u32 addr with
  | .BiosROM p       => .ok (rom8_read_byte bus.bios p)
  | .OnBoardWRAM _   => .unimpl
  | .OnChipWRAM _    => .unimpl
  | .RegistersIo p   => .ok (rom8_read_byte bus.ioregs p)
  | .PaletteRAM _    => .unimpl
  | .VRAM _          => .unimpl
  | .AttributesOBJ _ => .unimpl
  | .GamePak0ROM _   => .unimpl
  | .GamePak1ROM _   => .unimpl
  | .GamePak2ROM _   => .unimpl
  | .GamePakSRAM p   => .ok (rom8_read_byte bus.sram p)
  | .Invalid p       => .err (.InvalidPhysicalAddress p)

/-- Embeds `Bus::store_byte` (the stored byte is `data & 0xFF`). -/
def Bus.store_byte (bus : Bus) (addr data : Nat) : BusOut Bus :=
  let byte := data &&& 0xFF
  match PhysicalAddress.from_u32 addr with
  | .BiosROM p       => .err (.InvalidRomAccess p)
  | .OnBoardWRAM _   => .unimpl
  | .OnChipWRAM _    => .unimpl
  | .RegistersIo p   => .ok { bus with ioregs := ram8_write_byte bus.ioregs p byte }
  | .PaletteRAM _    => .unimpl
  | .VRAM _          => .unimpl
  | .AttributesOBJ _ => .unimpl
  | .GamePak0ROM _   => .unimpl
  | .GamePak1ROM _   => .unimpl
  | .GamePak2ROM _   => .unimpl
  | .GamePakSRAM p   => .ok { bus with sram := ram8_write_byte bus.sram p byte }
  | .Invalid p       => .err (.InvalidPhysicalAddress p)

/-- Embeds `Bus::load_halfword` (halfword values are zero-extended; the
source's warning log for misaligned addresses has no observable effect). -/
def Bus.load_halfword (bus : Bus) (addr : Nat) : BusOut Nat :=
  match PhysicalAddress.from_u32 addr with
  | .BiosROM p       => .ok (rom16_read_halfword bus.bios p)
  | .OnBoardWRAM _   => .unimpl
  | .OnChipWRAM _    => .unimpl
  | .RegistersIo p   => .ok (rom16_read_halfword bus.ioregs p)
  | .PaletteRAM _    => .unimpl
  | .VRAM _          => .unimpl
  | .AttributesOBJ _ => .unimpl
  | .GamePak0ROM _   => .unimpl
  | .GamePak1ROM _   => .unimpl
  | .GamePak2ROM _   => .unimpl
  | .GamePakSRAM p   => .err (.InvalidMemoryBusWidth p 16)
  | .Invalid p       => .err (.InvalidPhysicalAddress p)

/-- Embeds `Bus::store_halfword` (the stored halfword is `data & 0xFFFF`). -/
def Bus.store_halfword (bus : Bus) (addr data : Nat) : BusOut Bus :=
  let halfword := data &&& 0xFFFF
  match PhysicalAddress.from_u32 addr with
  | .BiosROM p       => .err (.InvalidRomAccess p)
  | .OnBoardWRAM _   => .unimpl
  | .OnChipWRAM _    => .unimpl
  | .RegistersIo p   => .ok { bus with ioregs := writeU16LE bus.ioregs p halfword }
  | .PaletteRAM _    => .unimpl
  | .VRAM _          => .unimpl
  | .AttributesOBJ _ => .unimpl
  | .GamePak0ROM _   => .unimpl
  | .GamePak1ROM _   => .unimpl
  | .GamePak2ROM _   => .unimpl
  | .GamePakSRAM p   => .err (.InvalidMemoryBusWidth p 16)
  | .Invalid p       => .err (.InvalidPhysicalAddress p)

/-- Sequencing of `Bus::store_byte` followed by `Bus::load_byte` at the
same address, for the byte round-trip property. -/
def Bus.store_then_load_byte (bus : Bus) (addr data : Nat) : BusOut Nat :=
  match Bus.store_byte bus addr data with
  | .ok b => Bus.load_byte b addr
  | .err e => .err e
  | .unimpl => .unimpl

/-! ### Barrel shifter opcodes and ALU shifter
(`src/hardware/cpu/arm7tdmi/exec/armbsop.rs` and `exec/mod.rs`) -/

/-- A barrel shifter opcode (`enum ArmBSOP`). -/
inductive ArmBSOP where
  | LSL_Imm (x : Nat)
  | LSR_Imm (x : Nat)
  | ASR_Imm (x : Nat)
  | ROR_Imm (x : Nat)
  | NOP
  | LSR_32
  | ASR_32
  | RRX
  | LSL_Reg (r : Nat)
  | LSR_Reg (r : Nat)
  | ASR_Reg (r : Nat)
  | ROR_Reg (r : Nat)
  deriving DecidableEq, Repr

/-- Embeds `ArmBSOP::decode_immediate`: a 2-bit shift opcode and a 5-bit
immediate, with the encoded-zero special cases. -/
def ArmBSOP.decode_immediate (op imm : Nat) : ArmBSOP :=
  match op &&& 0b11 with
  | 0 => if imm = 0 then .NOP else .LSL_Imm imm
  | 1 => if imm = 0 then .LSR_32 else .LSR_Imm imm
  | 2 => if imm = 0 then .ASR_32 else .ASR_Imm imm
  | _ => if imm = 0 then .RRX else .ROR_Imm imm

/-- Embeds `Arm7Tdmi::alu_rrx`: rotate right through carry. -/
def alu_rrx (op1 : Nat) (c : Bool) : Nat :=
  (if c then 2 ^ 31 else 0) ||| (op1 >>> 1)

/-- Embeds `Arm7Tdmi::alu_lsl_imm_carry` (value, carry) for LSL by 1..31. -/
def alu_lsl_imm_carry (op1 op2 : Nat) : Nat × Bool :=
  (lsl32 op1 op2, (asr32 op1 (32 - op2)).testBit 0)

/-- Embeds `Arm7Tdmi::alu_lsr_imm_carry` (value, carry) for LSR by 1..31. -/
def alu_lsr_imm_carry (op1 op2 : Nat) : Nat × Bool :=
  (lsr32 op1 op2, (asr32 op1 (op2 - 1)).testBit 0)

/-- Embeds `Arm7Tdmi::alu_asr_imm_carry` (value, carry) for ASR by 1..31. -/
def alu_asr_imm_carry (op1 op2 : Nat) : Nat × Bool :=
  (asr32 op1 op2, (asr32 op1 (op2 - 1)).testBit 0)

/-- Embeds `Arm7Tdmi::alu_ror_imm_carry` (value, carry) for ROR. -/
def alu_ror_imm_carry (op1 op2 : Nat) : Nat × Bool :=
  (rotr32 op1 op2, (asr32 op1 (op2 - 1)).testBit 0)

/-- Embeds `Arm7Tdmi::alu_lsl_reg_carry`: LSL by a register amount with
the ARM edge table for amounts 0, 32 and above. -/
def alu_lsl_reg_carry (op1 op2 : Nat) (c : Bool) : Nat × Bool :=
  if op2 = 0 then (op1, c)
  else if op2 < 32 then alu_lsl_imm_carry op1 op2
  else if op2 = 32 then (0, op1.testBit 0)
  else (0, false)

/-- Embeds `Arm7Tdmi::alu_lsr_reg_carry`: LSR by a register amount with
the ARM edge table for amounts 0, 32 and above. -/
def alu_lsr_reg_carry (op1 op2 : Nat) (c : Bool) : Nat × Bool :=
  if op2 = 0 then (op1, c)
  else if op2 < 32 then alu_lsr_imm_carry op1 op2
  else if op2 = 32 then (0, op1.testBit 31)
  else (0, false)

/-- Embeds `Arm7Tdmi::alu_asr_reg_carry`. -/
def alu_asr_reg_carry (op1 op2 : Nat) (c : Bool) : Nat × Bool :=
  if op2 = 0 then (op1, c)
  else if op2 < 32 then alu_asr_imm_carry op1 op2
  else (asr32 op1 31, op1.testBit 31)

/-- Embeds `Arm7Tdmi::alu_ror_reg_carry`. -/
def alu_ror_reg_carry (op1 op2 : Nat) (c : Bool) : Nat × Bool :=
  if op2 = 0 then (op1, c)
  else if op2 = 32 then (op1, op1.testBit 31)
  else alu_ror_imm_carry op1 (op2 % 32)

/-- Embeds `Arm7Tdmi::alu_barrel_shifter_carry`: dispatches a barrel
shifter opcode, reading register shift amounts from `gpr` and the current
carry flag `c`. -/
def alu_barrel_shifter_carry (gpr : Nat → Nat) (c : Bool)
    (bsop : ArmBSOP) (op1 : Nat) : Nat × Bool :=
  match bsop with
  | .LSL_Imm x => alu_lsl_imm_carry op1 x
  | .LSR_Imm x => alu_lsr_imm_carry op1 x
  | .ASR_Imm x => alu_asr_imm_carry op1 x
  | .ROR_Imm x => alu_ror_imm_carry op1 x
  | .NOP => (op1, c)
  | .LSR_32 => (op1 >>> 31, false)
  | .ASR_32 => (asr32 op1 31, op1.testBit 31)
  | .RRX => (alu_rrx op1 c, op1.testBit 0)
  | .LSL_Reg r => alu_lsl_reg_carry op1 ((gpr r) &&& 0xFF) c
  | .LSR_Reg r => alu_lsr_reg_carry op1 ((gpr r) &&& 0xFF) c
  | .ASR_Reg r => alu_asr_reg_carry op1 ((gpr r) &&& 0xFF) c
  | .ROR_Reg r => alu_ror_reg_carry op1 ((gpr r) &&& 0xFF) c

/-! ### ARM instructions and the shift-field interpreter
(`src/hardware/cpu/arminstruction/mod.rs`) -/

/-- A decoded ARM opcode family (`enum ArmOpcode`). -/
inductive ArmOpcode where
  | BX | B_BL | MUL_MLA | MULL_MLAL | DataProcessing
  | MRS | MSR_Reg | MSR_Flags | LDR_STR
  | LDRH_STRH_Reg | LDRH_STRH_Imm | LDM_STM
  | SWP | SWI | CDP | MRC_MCR | LDC_STC | Unknown
  deriving DecidableEq, Repr

/-- A decoded ARM instruction: the raw word plus the opcode family tag. -/
structure ArmInstruction where
  raw : Nat
  op : ArmOpcode
  deriving DecidableEq, Repr

/-- The raw 32-bit pseudo NOP word (`ArmInstruction::NOP_RAW`):
condition EQ, data-processing MOV without flags, `R0` into `R0`. -/
def ArmInstruction.NOP_RAW : Nat := 0x01A00000

/-- Embeds `ArmInstruction::nop`. -/
def ArmInstruction.nop : ArmInstruction :=
  { raw := ArmInstruction.NOP_RAW, op := ArmOpcode.DataProcessing }

/-- The data processing opcode field (`enum ArmDPOP`). -/
inductive ArmDPOP where
  | AND | EOR | SUB | RSB | ADD | ADC | SBC | RSC
  | TST | TEQ | CMP | CMN | ORR | MOV | BIC | MVN
  deriving DecidableEq, Repr

/-- Decodes the 4-bit data-processing opcode field. -/
def ArmDPOP.ofBits (n : Nat) : ArmDPOP :=
  match n % 16 with
  | 0 => .AND | 1 => .EOR | 2 => .SUB | 3 => .RSB
  | 4 => .ADD | 5 => .ADC | 6 => .SBC | 7 => .RSC
  | 8 => .TST | 9 => .TEQ | 10 => .CMP | 11 => .CMN
  | 12 => .ORR | 13 => .MOV | 14 => .BIC | _ => .MVN

/-- Embeds `ArmDPOP::is_test`. -/
def ArmDPOP.is_test : ArmDPOP → Bool
  | .TST | .TEQ | .CMP | .CMN => true
  | _ => false

/-- Embeds `ArmInstruction::condition`. -/
def ArmInstruction.condition (i : ArmInstruction) : ArmCondition :=
  ArmCondition.ofBits ((i.raw >>> 28) &&& 0b1111)

/-- Embeds `ArmInstruction::dpop`. -/
def ArmInstruction.dpop (i : ArmInstruction) : ArmDPOP :=
  ArmDPOP.ofBits ((i.raw >>> 21) &&& 0b1111)

/-- Embeds `ArmInstruction::Rn`. -/
def ArmInstruction.Rn (i : ArmInstruction) : Nat := (i.raw >>> 16) &&& 0b1111

/-- Embeds `ArmInstruction::Rd`. -/
def ArmInstruction.Rd (i : ArmInstruction) : Nat := (i.raw >>> 12) &&& 0b1111

/-- Embeds `ArmInstruction::Rs`. -/
def ArmInstruction.Rs (i : ArmInstruction) : Nat := (i.raw >>> 8) &&& 0b1111

/-- Embeds `ArmInstruction::Rm`. -/
def ArmInstruction.Rm (i : ArmInstruction) : Nat := i.raw &&& 0b1111

/-- Embeds `ArmInstruction::is_shift_field_register` (bit 25 clear). -/
def ArmInstruction.is_shift_field_register (i : ArmInstruction) : Bool :=
  (i.raw &&& (1 <<< 25)) == 0

/-- Embeds `ArmInstruction::is_setting_flags` (bit 20 set). -/
def ArmInstruction.is_setting_flags (i : ArmInstruction) : Bool :=
  (i.raw &&& (1 <<< 20)) != 0

/-- Embeds `ArmInstruction::rotated_immediate`: the low byte rotated right
by twice the 4-bit rotation field. -/
def ArmInstruction.rotated_immediate (i : ArmInstruction) : Nat :=
  rotr32 (i.raw &&& 0xFF) (2 * ((i.raw >>> 8) &&& 0b1111))

/-- Embeds `ArmInstruction::decode_Rs_shift` (the helper of the carry-less
shifted-register computation): `Sum.inl` is the source's early-return value
and `Sum.inr` the in-range shift amount. -/
def ArmInstruction.decode_Rs_shift (i : ArmInstruction) (a : Nat)
    (regs : Nat → Nat) : Sum Nat Nat :=
  let r := (regs i.Rs) &&& 0xFF
  if r = 0 then Sum.inl a
  else if 32 ≤ r then
    Sum.inl (match (i.raw >>> 5) &&& 0b11 with
      | 0 => 0
      | 1 => 0
      | 2 => asr32 a 31
      | _ => if r = 32 then a else rotr32 a (r % 32))
  else Sum.inr r

/-- Embeds `ArmInstruction::decode_Rs_shift_with_carry`: `Sum.inl` is the
source's early-return (value, carry) pair and `Sum.inr` the in-range shift
amount.  The `r % 32 = 0` rotate case inherits Rust's wrapping `r - 1`
subtraction on `u32`. -/
def ArmInstruction.decode_Rs_shift_with_carry (i : ArmInstruction) (a : Nat)
    (regs : Nat → Nat) (carry : Bool) : Sum (Nat × Bool) Nat :=
  let r := (regs i.Rs) &&& 0xFF
  if r = 0 then Sum.inl (a, carry)
  else if 32 ≤ r then
    let bit31 := a.testBit 31
    Sum.inl (match (i.raw >>> 5) &&& 0b11 with
      | 0 => if r = 32 then (0, a.testBit 0) else (0, false)
      | 1 => if r = 32 then (0, bit31) else (0, false)
      | 2 => (asr32 a 31, bit31)
      | _ =>
        if r = 32 then (a, bit31)
        else
          let r2 := r % 32
          (rotr32 a r2, (asr32 a ((r2 + 0xFFFFFFFF) % 2 ^ 32)).testBit 0))
  else Sum.inr r

/-- Embeds `ArmInstruction::calculate_shifted_register`: the shift-field
operand without carry computation.  The `raw & 0x0F90 == 0` test routes the
shift-by-encoded-zero special cases. -/
def ArmInstruction.calculate_shifted_register (i : ArmInstruction)
    (regs : Nat → Nat) (carry : Bool) : Nat :=
  let a := regs i.Rm
  if i.raw &&& 0x0F90 = 0 then
    match (i.raw >>> 5) &&& 0b11 with
    | 0 => a
    | 1 => 0
    | 2 => asr32 a 31
    | _ => (if carry then 2 ^ 31 else 0) ||| (a >>> 1)
  else
    match (if i.raw &&& (1 <<< 4) = 0
           then Sum.inr ((i.raw >>> 7) &&& 0b11111)
           else i.decode_Rs_shift a regs) with
    | Sum.inl y => y
    | Sum.inr b =>
      match (i.raw >>> 5) &&& 0b11 with
      | 0 => lsl32 a b
      | 1 => lsr32 a b
      | 2 => asr32 a b
      | _ => rotr32 a (b % 32)

/-- Embeds `ArmInstruction::calculate_shifted_register_with_carry`: the
shift-field operand together with the carry-out. -/
def ArmInstruction.calculate_shifted_register_with_carry (i : ArmInstruction)
    (regs : Nat → Nat) (carry : Bool) : Nat × Bool :=
  let a := regs i.Rm
  if i.raw &&& 0x0F90 = 0 then
    match (i.raw >>> 5) &&& 0b11 with
    | 0 => (a, carry)
    | 1 => (0, a.testBit 31)
    | 2 => (asr32 a 31, a.testBit 31)
    | _ => ((if carry then 2 ^ 31 else 0) ||| (a >>> 1), a.testBit 0)
  else
    match (if i.raw &&& (1 <<< 4) = 0
           then Sum.inr ((i.raw >>> 7) &&& 0b11111)
           else i.decode_Rs_shift_with_carry a regs carry) with
    | Sum.inl y => y
    | Sum.inr b =>
      let carry_right := (asr32 a (b - 1)).testBit 0
      match (i.raw >>> 5) &&& 0b11 with
      | 0 => (lsl32 a b, (asr32 a (32 - b)).testBit 0)
      | 1 => (lsr32 a b, carry_right)
      | 2 => (asr32 a b, carry_right)
      | _ => (rotr32 a (b % 32), carry_right)

/-- Embeds `ArmInstruction::calculate_shft_field`: a rotated immediate or a
shifted register, without carry. -/
def ArmInstruction.calculate_shft_field (i : ArmInstruction)
    (regs : Nat → Nat) (carry : Bool) : Nat :=
  if i.is_shift_field_register then i.calculate_shifted_register regs carry
  else i.rotated_immediate

/-- Embeds `ArmInstruction::calculate_shft_field_with_carry`.  For a
rotated immediate operand the source returns the pair
`(self.rotated_immediate(), false)`: the carry-out is the literal `false`. -/
def ArmInstruction.calculate_shft_field_with_carry (i : ArmInstruction)
    (regs : Nat → Nat) (carry : Bool) : Nat × Bool :=
  if i.is_shift_field_register then
    i.calculate_shifted_register_with_carry regs carry
  else (i.rotated_immediate, false)

/-! ### CPU states, modes and PSR mutators
(`src/hardware/cpu/arm7tdmi/cpsr.rs`) -/

/-- The CPU's instruction decoding states. -/
inductive State where
  | ARM
  | THUMB
  deriving DecidableEq, Repr

/-- The numeric value of a state (`State as u8`). -/
def State.toBits : State → Nat
  | .ARM => 0
  | .THUMB => 1

/-- The CPU's execution modes. -/
inductive Mode where
  | User
  | FIQ
  | IRQ
  | Supervisor
  | Abort
  | Undefined
  | System
  deriving DecidableEq, Repr

/-- The numeric ordinal of a mode (`Mode as u8`), used to index the
register banks and SPSR array. -/
def Mode.idx : Mode → Nat
  | .User => 0
  | .FIQ => 1
  | .IRQ => 2
  | .Supervisor => 3
  | .Abort => 4
  | .Undefined => 5
  | .System => 6

/-- Embeds `Mode::as_bits`: the 5-bit CPSR mode pattern. -/
def Mode.as_bits : Mode → Nat
  | .User => 0b10000
  | .FIQ => 0b10001
  | .IRQ => 0b10010
  | .Supervisor => 0b10011
  | .Abort => 0b10111
  | .Undefined => 0b11011
  | .System => 0b11111

/-- Embeds `CPSR::set_state`: clear bit 5, then set it from the state. -/
def CPSR.setState (c : Nat) (s : State) : Nat :=
  (c &&& (0xFFFFFFFF ^^^ (1 <<< 5))) ||| (s.toBits <<< 5)

/-- Embeds `CPSR::set_mode`: clear the 5 mode bits, then set the pattern. -/
def CPSR.setMode (c : Nat) (m : Mode) : Nat :=
  (c &&& (0xFFFFFFFF ^^^ 0b11111)) ||| m.as_bits

/-- Embeds `CPSR::disable_irq`: sets bit 7. -/
def CPSR.disableIrq (c : Nat) : Nat := c ||| (1 <<< 7)

/-- Embeds `CPSR::disable_fiq`: sets bit 6. -/
def CPSR.disableFiq (c : Nat) : Nat := c ||| (1 <<< 6)

/-- Embeds `CPSR::irq_disabled`: bit 7. -/
def CPSR.irqDisabled (c : Nat) : Bool := (c &&& (1 <<< 7)) != 0

/-- Embeds `CPSR::fiq_disabled`: bit 6. -/
def CPSR.fiqDisabled (c : Nat) : Bool := (c &&& (1 <<< 6)) != 0

/-- Embeds `CPSR::state`: reads the state from bit 5. -/
def CPSR.state (c : Nat) : State :=
  match (c >>> 5) &&& 1 with
  | 0 => State.ARM
  | _ => State.THUMB

/-- Embeds `CPSR::set_N`. -/
def CPSR.setN (c : Nat) (b : Bool) : Nat :=
  if b then c ||| (1 <<< 31) else c &&& (0xFFFFFFFF ^^^ (1 <<< 31))

/-- Embeds `CPSR::set_Z`. -/
def CPSR.setZ (c : Nat) (b : Bool) : Nat :=
  if b then c ||| (1 <<< 30) else c &&& (0xFFFFFFFF ^^^ (1 <<< 30))

/-- Embeds `CPSR::set_C`. -/
def CPSR.setC (c : Nat) (b : Bool) : Nat :=
  if b then c ||| (1 <<< 29) else c &&& (0xFFFFFFFF ^^^ (1 <<< 29))

/-- Embeds `CPSR::set_V`. -/
def CPSR.setV (c : Nat) (b : Bool) : Nat :=
  if b then c ||| (1 <<< 28) else c &&& (0xFFFFFFFF ^^^ (1 <<< 28))

/-! ### Exceptions (`src/hardware/cpu/arm7tdmi/exception.rs`) -/

/-- CPU exceptions. -/
inductive Exception where
  | Reset
  | UndefinedInstruction
  | SoftwareInterrupt
  | PrefetchAbort
  | DataAbort
  | AddressExceeds26Bit
  | NormalInterrupt
  | FastInterrupt
  deriving DecidableEq, Repr

/-- The discriminant of an exception (`Exception as u8`). -/
def Exception.index : Exception → Nat
  | .Reset => 0
  | .UndefinedInstruction => 1
  | .SoftwareInterrupt => 2
  | .PrefetchAbort => 3
  | .DataAbort => 4
  | .AddressExceeds26Bit => 5
  | .NormalInterrupt => 6
  | .FastInterrupt => 7

/-- Embeds `Exception::mode_on_entry`. -/
def Exception.mode_on_entry : Exception → Mode
  | .PrefetchAbort => Mode.Abort
  | .DataAbort => Mode.Abort
  | .Reset => Mode.Supervisor
  | .SoftwareInterrupt => Mode.Supervisor
  | .AddressExceeds26Bit => Mode.Supervisor
  | .UndefinedInstruction => Mode.Undefined
  | .NormalInterrupt => Mode.IRQ
  | .FastInterrupt => Mode.FIQ

/-- Embeds `Exception::disable_fiq_on_entry`: true exactly for Reset and
FastInterrupt. -/
def Exception.disable_fiq_on_entry (e : Exception) : Bool :=
  decide (e = Exception.Reset) || decide (e = Exception.FastInterrupt)

/-- Embeds `Exception::vector_address`: four times the discriminant. -/
def Exception.vector_address (e : Exception) : Nat := e.index * 4

/-! ### The CPU core (`src/hardware/cpu/arm7tdmi/mod.rs`) -/

/-- The raw 16-bit THUMB pseudo NOP (`ThumbInstruction::NOP_RAW`,
a `MOV R8, R8` high-register operation). -/
def ThumbInstruction.NOP_RAW : Nat := 0b0100011011000000

/-- What the CPU should do after executing an instruction. -/
inductive CpuAction where
  | None
  | FlushPipeline
  deriving DecidableEq, Repr

/-- The ARM7TDMI CPU state (`struct Arm7Tdmi`).  Registers and banks are
byte-pattern maps from (Rust `usize`) indices to 32-bit words; the THUMB
pipeline latches are modelled by their raw halfwords only. -/
structure Arm7Tdmi where
  gpr : Nat → Nat
  cpsr : Nat
  spsr : Nat → Nat
  decoded_arm : ArmInstruction
  fetched_arm : Nat
  decoded_thumb : Nat
  fetched_thumb : Nat
  gpr_r8_r12_fiq : Nat → Nat
  gpr_r8_r12_other : Nat → Nat
  gpr_r13_all : Nat → Nat
  gpr_r14_all : Nat → Nat
  mode : Mode
  state : State
  irq_disable : Bool
  fiq_disable : Bool
  optimise_swi : Bool
  delay_cycles : Nat
  bus : Bus

/-- Embeds `Arm7Tdmi::change_mode`: banks the current mode's R13/R14,
loads the new mode's R13, writes the return address (the current PC) into
R14 and the new mode's R14 bank, saves CPSR into the new mode's SPSR,
swaps R8..R12 with the FIQ bank when exactly one of the two modes is FIQ,
and finally updates the CPSR mode field and the mode. -/
def Arm7Tdmi.change_mode (s : Arm7Tdmi) (new_mode : Mode) : Arm7Tdmi :=
  let cmi := s.mode.idx
  let nmi := new_mode.idx
  let ret_addr := s.gpr 15
  let r14a := Function.update s.gpr_r14_all cmi (s.gpr 14)
  let r14b := Function.update r14a nmi ret_addr
  let g1 := Function.update s.gpr 14 ret_addr
  let r13a := Function.update s.gpr_r13_all cmi (g1 13)
  let g2 := Function.update g1 13 (r13a nmi)
  let sp := Function.update s.spsr nmi s.cpsr
  let fiq_swap := (decide (new_mode = Mode.FIQ)) != (decide (s.mode = Mode.FIQ))
  let banked : (Nat → Nat) × (Nat → Nat) × (Nat → Nat) :=
    if fiq_swap then
      if new_mode = Mode.FIQ then
        (fun r => if 8 ≤ r ∧ r < 13 then s.gpr_r8_r12_fiq (r - 8) else g2 r,
         s.gpr_r8_r12_fiq,
         fun j => g2 (j + 8))
      else
        (fun r => if 8 ≤ r ∧ r < 13 then s.gpr_r8_r12_other (r - 8) else g2 r,
         fun j => g2 (j + 8),
         s.gpr_r8_r12_other)
    else (g2, s.gpr_r8_r12_fiq, s.gpr_r8_r12_other)
  { s with
      gpr := banked.1,
      gpr_r8_r12_fiq := banked.2.1,
      gpr_r8_r12_other := banked.2.2,
      gpr_r13_all := r13a,
      gpr_r14_all := r14b,
      spsr := sp,
      cpsr := CPSR.setMode s.cpsr new_mode,
      mode := new_mode }

/-- Embeds `Arm7Tdmi::exception`: changes mode, forces ARM state, sets the
IRQ-disable bit, for some exceptions also the FIQ-disable bit, and jumps
to the vector address. -/
def Arm7Tdmi.exception (s : Arm7Tdmi) (ex : Exception) : Arm7Tdmi :=
  let s1 := s.change_mode ex.mode_on_entry
  let s2 := { s1 with cpsr := CPSR.setState s1.cpsr State.ARM, state := State.ARM }
  let s3 := { s2 with cpsr := CPSR.disableIrq s2.cpsr }
  let s4 := if ex.disable_fiq_on_entry
            then { s3 with cpsr := CPSR.disableFiq s3.cpsr } else s3
  { s4 with gpr := Function.update s4.gpr 15 ex.vector_address }

/-- Embeds `Arm7Tdmi::flush_pipeline`: fills both pipeline latch pairs
with the pseudo NOPs. -/
def Arm7Tdmi.flush_pipeline (s : Arm7Tdmi) : Arm7Tdmi :=
  { s with
      decoded_arm := ArmInstruction.nop,
      fetched_arm := ArmInstruction.NOP_RAW,
      decoded_thumb := ThumbInstruction.NOP_RAW,
      fetched_thumb := ThumbInstruction.NOP_RAW }

/-! ### The ALU and the data-processing executor
(`src/hardware/cpu/arm7tdmi/exec/mod.rs` and `exec/execarm.rs`) -/

/-- Embeds `Arm7Tdmi::alu_data_processing` (the non-flag-setting entry
point).  `none` stands for the source's panic on the four test opcodes. -/
def Arm7Tdmi.alu_data_processing (s : Arm7Tdmi) (dpop : ArmDPOP)
    (op1 op2 : Nat) : Option Nat :=
  let c : Nat := if CPSR.C s.cpsr then 1 else 0
  match dpop with
  | .AND => some (op1 &&& op2)
  | .EOR => some (op1 ^^^ op2)
  | .SUB => some ((op1 + 2 ^ 32 - op2) % 2 ^ 32)
  | .RSB => some ((op2 + 2 ^ 32 - op1) % 2 ^ 32)
  | .ADD => some ((op1 + op2) % 2 ^ 32)
  | .ADC => some ((op1 + op2 + c) % 2 ^ 32)
  | .SBC => some ((op1 + 2 ^ 32 - op2 + 2 ^ 32 - (1 - c)) % 2 ^ 32)
  | .RSC => some ((op2 + 2 ^ 32 - op1 + 2 ^ 32 - (1 - c)) % 2 ^ 32)
  | .TST => none
  | .TEQ => none
  | .CMP => none
  | .CMN => none
  | .ORR => some (op1 ||| op2)
  | .MOV => some op2
  | .BIC => some (op1 &&& not32 op2)
  | .MVN => some (not32 op2)

/-- Embeds `Arm7Tdmi::alu_data_processing_flags`: computes the result and
the new CPSR (N, Z, C, V updated in the source's order); the result is
`none` for the four test opcodes. -/
def alu_data_processing_flags (cpsr : Nat) (dpop : ArmDPOP)
    (op1 op2 : Nat) (shift_carry : Bool) : Option Nat × Nat :=
  let c : Nat := if CPSR.C cpsr then 1 else 0
  let rcv : Nat × Bool × Bool :=
    match dpop with
    | .AND => (op1 &&& op2, shift_carry, CPSR.V cpsr)
    | .TST => (op1 &&& op2, shift_carry, CPSR.V cpsr)
    | .EOR => (op1 ^^^ op2, shift_carry, CPSR.V cpsr)
    | .TEQ => (op1 ^^^ op2, shift_carry, CPSR.V cpsr)
    | .SUB => alu_sub_carry_overflow op1 op2
    | .CMP => alu_sub_carry_overflow op1 op2
    | .RSB => alu_sub_carry_overflow op2 op1
    | .ADD => alu_add_carry_overflow op1 op2
    | .CMN => alu_add_carry_overflow op1 op2
    | .ADC => alu_add_carry_overflow op1 ((op2 + c) % 2 ^ 32)
    | .SBC => alu_sub_carry_overflow op1 ((op2 + 2 ^ 32 - (1 - c)) % 2 ^ 32)
    | .RSC => alu_sub_carry_overflow op2 ((op1 + 2 ^ 32 - (1 - c)) % 2 ^ 32)
    | .ORR => (op1 ||| op2, shift_carry, CPSR.V cpsr)
    | .MOV => (op2, shift_carry, CPSR.V cpsr)
    | .BIC => (op1 &&& not32 op2, shift_carry, CPSR.V cpsr)
    | .MVN => (not32 op2, shift_carry, CPSR.V cpsr)
  let res := rcv.1
  let cpsr1 := CPSR.setN cpsr (res.testBit 31)
  let cpsr2 := CPSR.setZ cpsr1 (decide (res = 0))
  let cpsr3 := CPSR.setC cpsr2 rcv.2.1
  let cpsr4 := CPSR.setV cpsr3 rcv.2.2
  (if dpop.is_test then none else some res, cpsr4)

/-- Outcome of an executor call: a next state with a CPU action, an error
together with the state the source leaves behind, a source
`unimplemented!()`/`panic!()`, or an opcode family whose handler is not
part of this development. -/
inductive ExecOut where
  | act (s : Arm7Tdmi) (action : CpuAction)
  | err (s : Arm7Tdmi) (e : GbaError)
  | unimpl
  | unmodeled

/-- Embeds `Arm7Tdmi::execute_data_processing_s` (the `S`-bit variant). -/
def Arm7Tdmi.execute_data_processing_s (s : Arm7Tdmi)
    (inst : ArmInstruction) : ExecOut :=
  let op1 := s.gpr inst.Rn
  let oc := inst.calculate_shft_field_with_carry s.gpr (CPSR.C s.cpsr)
  let rc := alu_data_processing_flags s.cpsr inst.dpop op1 oc.1 oc.2
  let s1 := { s with cpsr := rc.2 }
  let s2 := match rc.1 with
    | some x => { s1 with gpr := Function.update s1.gpr inst.Rd x }
    | none => s1
  if inst.Rd = 15 then
    if s2.mode = Mode.User then ExecOut.err s2 GbaError.PrivilegedUserCode
    else ExecOut.act { s2 with cpsr := s2.spsr s2.mode.idx } CpuAction.FlushPipeline
  else ExecOut.act s2 CpuAction.None

/-- Embeds `Arm7Tdmi::execute_data_processing`. -/
def Arm7Tdmi.execute_data_processing (s : Arm7Tdmi)
    (inst : ArmInstruction) : ExecOut :=
  if inst.is_setting_flags then s.execute_data_processing_s inst
  else
    let op1 := s.gpr inst.Rn
    let op2 := inst.calculate_shft_field s.gpr (CPSR.C s.cpsr)
    match s.alu_data_processing inst.dpop op1 op2 with
    | none => ExecOut.unimpl
    | some res =>
      ExecOut.act { s with gpr := Function.update s.gpr inst.Rd res }
        (if inst.Rd = 15 then CpuAction.FlushPipeline else CpuAction.None)

/-- Embeds `Arm7Tdmi::execute_arm_state`: evaluates the condition first (a
failing condition makes the instruction a no-op), then dispatches on the
opcode family.  CDP, LDC/STC and MRC/MCR are `unimplemented!()` in the
source; the remaining handler families are outside the scope of this
development and routed to `unmodeled`. -/
def Arm7Tdmi.execute_arm_state (s : Arm7Tdmi) (inst : ArmInstruction) : ExecOut :=
  match inst.condition.check s.cpsr with
  | .error e => ExecOut.err s e
  | .ok false => ExecOut.act s CpuAction.None
  | .ok true =>
    match inst.op with
    | .DataProcessing => s.execute_data_processing inst
    | .CDP => ExecOut.unimpl
    | .LDC_STC => ExecOut.unimpl
    | .MRC_MCR => ExecOut.unimpl
    | _ => ExecOut.unmodeled

/-! ### Concrete states used in witnesses and counterexamples -/

/-- A BIOS ROM byte map holding AA BB CC DD at offsets 0..3. -/
def biosAABBCCDD : Nat → Nat := fun a =>
  if a = 0 then 0xAA else if a = 1 then 0xBB
  else if a = 2 then 0xCC else if a = 3 then 0xDD else 0

/-- A concrete bus: the BIOS holds AA BB CC DD, everything else is zero. -/
def busC1 : Bus := { bios := biosAABBCCDD, ioregs := fun _ => 0, sram := fun _ => 0 }

/-- An all-zero bus. -/
def busZero : Bus := { bios := fun _ => 0, ioregs := fun _ => 0, sram := fun _ => 0 }

/-- A concrete baseline CPU state in User mode: all registers, banks and
PSRs zero, with a decoded ARM latch that is not the pseudo NOP. -/
def cpu0 : Arm7Tdmi where
  gpr := fun _ => 0
  cpsr := 0
  spsr := fun _ => 0
  decoded_arm := { raw := 0, op := ArmOpcode.DataProcessing }
  fetched_arm := 0
  decoded_thumb := 0
  fetched_thumb := 0
  gpr_r8_r12_fiq := fun _ => 0
  gpr_r8_r12_other := fun _ => 0
  gpr_r13_all := fun _ => 0
  gpr_r14_all := fun _ => 0
  mode := Mode.User
  state := State.ARM
  irq_disable := false
  fiq_disable := false
  optimise_swi := false
  delay_cycles := 0
  bus := busZero

/-- The baseline CPU state with `R14 = 1` (and `PC = 0`). -/
def cpuR14one : Arm7Tdmi :=
  { cpu0 with gpr := fun r => if r = 14 then 1 else 0 }

/-! ### Auxiliary lemmas -/

theorem from_u32_bios {a : Nat} (h : a ≤ 0x00003FFF) :
    PhysicalAddress.from_u32 a = PhysicalAddress.BiosROM a := by
  unfold PhysicalAddress.from_u32
  rw [if_pos h]

theorem from_u32_sram {a : Nat} (h1 : 0x0E000000 ≤ a) (h2 : a ≤ 0x0E00FFFF) :
    PhysicalAddress.from_u32 a = PhysicalAddress.GamePakSRAM (a - 0x0E000000) := by
  have n1 : ¬ a ≤ 0x00003FFF := by omega
  have n2 : ¬ (0x02000000 ≤ a ∧ a ≤ 0x0203FFFF) := by omega
  have n3 : ¬ (0x03000000 ≤ a ∧ a ≤ 0x03007FFF) := by omega
  have n4 : ¬ (0x04000000 ≤ a ∧ a ≤ 0x040003FE) := by omega
  have n5 : ¬ (0x05000000 ≤ a ∧ a ≤ 0x050003FF) := by omega
  have n6 : ¬ (0x06000000 ≤ a ∧ a ≤ 0x06017FFF) := by omega
  have n7 : ¬ (0x07000000 ≤ a ∧ a ≤ 0x070003FF) := by omega
  have n8 : ¬ (0x08000000 ≤ a ∧ a ≤ 0x09FFFFFF) := by omega
  have n9 : ¬ (0x0A000000 ≤ a ∧ a ≤ 0x0BFFFFFF) := by omega
  have n10 : ¬ (0x0C000000 ≤ a ∧ a ≤ 0x0DFFFFFF) := by omega
  unfold PhysicalAddress.from_u32
  rw [if_neg n1, if_neg n2, if_neg n3, if_neg n4, if_neg n5, if_neg n6,
      if_neg n7, if_neg n8, if_neg n9, if_neg n10, if_pos ⟨h1, h2⟩]

theorem from_u32_invalid {a : Nat} (h : 0x0E010000 ≤ a) :
    PhysicalAddress.from_u32 a = PhysicalAddress.Invalid a := by
  have m1 : ¬ a ≤ 0x00003FFF := by omega
  have m2 : ¬ (0x02000000 ≤ a ∧ a ≤ 0x0203FFFF) := by omega
  have m3 : ¬ (0x03000000 ≤ a ∧ a ≤ 0x03007FFF) := by omega
  have m4 : ¬ (0x04000000 ≤ a ∧ a ≤ 0x040003FE) := by omega
  have m5 : ¬ (0x05000000 ≤ a ∧ a ≤ 0x050003FF) := by omega
  have m6 : ¬ (0x06000000 ≤ a ∧ a ≤ 0x06017FFF) := by omega
  have m7 : ¬ (0x07000000 ≤ a ∧ a ≤ 0x070003FF) := by omega
  have m8 : ¬ (0x08000000 ≤ a ∧ a ≤ 0x09FFFFFF) := by omega
  have m9 : ¬ (0x0A000000 ≤ a ∧ a ≤ 0x0BFFFFFF) := by omega
  have m10 : ¬ (0x0C000000 ≤ a ∧ a ≤ 0x0DFFFFFF) := by omega
  have m11 : ¬ (0x0E000000 ≤ a ∧ a ≤ 0x0E00FFFF) := by omega
  unfold PhysicalAddress.from_u32
  rw [if_neg m1, if_neg m2, if_neg m3, if_neg m4, if_neg m5, if_neg m6,
      if_neg m7, if_neg m8, if_neg m9, if_neg m10, if_neg m11]

theorem load_byte_sram (bus : Bus) {a : Nat}
    (h1 : 0x0E000000 ≤ a) (h2 : a ≤ 0x0E00FFFF) :
    Bus.load_byte bus a = BusOut.ok (rom8_read_byte bus.sram (a - 0x0E000000)) := by
  unfold Bus.load_byte
  rw [from_u32_sram h1 h2]

theorem store_byte_sram (bus : Bus) {a : Nat} (v : Nat)
    (h1 : 0x0E000000 ≤ a) (h2 : a ≤ 0x0E00FFFF) :
    Bus.store_byte bus a v =
      BusOut.ok { bus with
        sram := ram8_write_byte bus.sram (a - 0x0E000000) (v &&& 0xFF) } := by
  unfold Bus.store_byte
  rw [from_u32_sram h1 h2]

theorem read_after_write_byte (f : Nat → Nat) (x w : Nat) :
    rom8_read_byte (ram8_write_byte f x w) x = w :=
  Function.update_same _ _ _

theorem land_bit_ne_zero (c i : Nat) : ((c &&& (1 <<< i)) != 0) = c.testBit i := by
  have h1 : (1 : Nat) <<< i = 2 ^ i := by rw [Nat.shiftLeft_eq, one_mul]
  rw [h1, Nat.and_two_pow]
  cases h : c.testBit i <;> simp [h, Nat.pow_eq_zero]

theorem irqDisabled_testBit (c : Nat) : CPSR.irqDisabled c = c.testBit 7 :=
  land_bit_ne_zero c 7

theorem fiqDisabled_testBit (c : Nat) : CPSR.fiqDisabled c = c.testBit 6 :=
  land_bit_ne_zero c 6

theorem state_testBit (c : Nat) :
    CPSR.state c = (if c.testBit 5 then State.THUMB else State.ARM) := by
  rcases Nat.mod_two_eq_zero_or_one (c >>> 5) with h2 | h2 <;>
    simp [CPSR.state, Nat.testBit, Nat.one_and_eq_mod_two, Nat.and_one_is_mod, h2]

theorem as_bits_testBit_ge5 (m : Mode) (i : Nat) (h : 5 ≤ i) :
    (Mode.as_bits m).testBit i = false := by
  apply Nat.testBit_eq_false_of_lt
  have hlt : Mode.as_bits m < 2 ^ 5 := by cases m <;> decide
  exact lt_of_lt_of_le hlt (Nat.pow_le_pow_right (by norm_num) h)

theorem mode_idx_injective {a b : Mode} (h : a ≠ b) : a.idx ≠ b.idx := by
  cases a <;> cases b <;> simp_all [Mode.idx]

/-! ### Claim C4: the condition evaluator matches the standard ARM table -/

/-- C4: for each of the 15 defined 4-bit condition codes and every CPSR
value, `ArmCondition::check` returns `Ok` of the boolean given by the
standard ARM table, and for the 16th code NV it returns the
reserved-condition error for every CPSR value. -/
theorem condition_check_matches_spec_table (c : ArmCondition) (cpsr : Nat) :
    c.check cpsr =
      (if c = ArmCondition.NV then Except.error GbaError.ReservedArmConditionNV
       else Except.ok (specConditionTable c (CPSR.N cpsr) (CPSR.Z cpsr)
              (CPSR.C cpsr) (CPSR.V cpsr))) := by
  cases c <;> simp [ArmCondition.check, specConditionTable, bne]

/-! ### Claim C5: the ALU subtraction carry is inverted -/

/-- C5: the ALU subtraction primitive computes the 32-bit difference and
the signed-overflow bit, but its carry output is `1` exactly on a borrow:
at `a = 5, b = 3` (no borrow) it returns carry `0`, and at `a = 3, b = 5`
(borrow) it returns carry `1` — the opposite of the claimed
carry-means-no-borrow rule. -/
theorem alu_sub_carry_is_borrow :
    alu_sub_carry_overflow 5 3 = (2, false, false) ∧
    alu_sub_carry_overflow 3 5 = (0xFFFFFFFE, true, false) := by
  constructor <;> decide

/-! ### Claim C1: misaligned bus word reads are not rotated -/

/-- C1: with the BIOS ROM holding bytes AA BB CC DD at offsets 0..3 (the
stored word at the aligned address is `0xDDCCBBAA`), a bus word load at
the misaligned address 2 returns the *unrotated* word `0xDDCCBBAA`:
`Rom32::read_word` computes the claimed rotation
`rotate_right(0xDDCCBBAA, 16) = 0xBBAADDCC` but discards it. -/
theorem load_word_misaligned_unrotated :
    Bus.load_word busC1 2 = BusOut.ok 0xDDCCBBAA ∧
    rotr32 0xDDCCBBAA 16 = 0xBBAADDCC := by
  constructor <;> decide

/-! ### Claim C9: SRAM byte round trip -/

set_option maxRecDepth 4000 in
/-- C9: for every bus state, every address in the GamePak SRAM region and
every 32-bit value `v`, storing a byte and loading it back at the same
address returns `Ok (v &&& 0xFF)`. -/
theorem sram_byte_roundtrip (bus : Bus) (a v : Nat)
    (h1 : 0x0E000000 ≤ a) (h2 : a ≤ 0x0E00FFFF) :
    Bus.store_then_load_byte bus a v = BusOut.ok (v &&& 0xFF) := by
  unfold Bus.store_then_load_byte
  rw [store_byte_sram bus v h1 h2]
  show Bus.load_byte { bus with
    sram := ram8_write_byte bus.sram (a - 0x0E000000) (v &&& 0xFF) } a =
      BusOut.ok (v &&& 0xFF)
  rw [load_byte_sram { bus with
    sram := ram8_write_byte bus.sram (a - 0x0E000000) (v &&& 0xFF) } h1 h2]
  have hproj : ({ bus with
      sram := ram8_write_byte bus.sram (a - 0x0E000000) (v &&& 0xFF) } : Bus).sram =
      ram8_write_byte bus.sram (a - 0x0E000000) (v &&& 0xFF) := rfl
  rw [hproj]
  exact congrArg BusOut.ok (read_after_write_byte _ _ _)

/-- Witness for C9 at the concrete address `0x0E000005` and value
`0x1234`. -/
theorem sram_byte_roundtrip_witness :
    0x0E000000 ≤ (0x0E000005 : Nat) ∧ (0x0E000005 : Nat) ≤ 0x0E00FFFF ∧
    Bus.store_then_load_byte busZero 0x0E000005 0x1234 = BusOut.ok (0x1234 &&& 0xFF) :=
  ⟨by decide, by decide,
   sram_byte_roundtrip busZero 0x0E000005 0x1234 (by decide) (by decide)⟩

/-! ### Claim C8: bus error reporting -/

/-- C8 counterexample: a halfword load at the SRAM address `0x0E000004`
fails with `InvalidMemoryBusWidth` carrying the region-local offset `4`,
not the accessed address `0x0E000004`; and a word store to the GamePak
ROM region hits an `unimplemented!()` panic rather than failing with
`InvalidRomAccess`. -/
theorem bus_error_payload_counterexample :
    Bus.load_halfword busC1 0x0E000004 =
      BusOut.err (GbaError.InvalidMemoryBusWidth 4 16) ∧
    (4 : Nat) ≠ 0x0E000004 ∧
    Bus.store_word busC1 0x08000000 0 = BusOut.unimpl := by
  refine ⟨by decide, by decide, rfl⟩

/-- C8 (amended): halfword and word accesses to the GamePak SRAM region
fail with `InvalidMemoryBusWidth` carrying the SRAM-local offset and the
width; writes of any width to the BIOS ROM region fail with
`InvalidRomAccess` carrying the BIOS-local offset (equal to the address,
since the region starts at 0); accesses to an unmapped address fail with
`InvalidPhysicalAddress` carrying the original address; every failing
operation returns no updated bus, so no backing store is modified. -/
theorem bus_error_payloads (bus : Bus) (d a b u : Nat)
    (ha1 : 0x0E000000 ≤ a) (ha2 : a ≤ 0x0E00FFFF)
    (hb : b ≤ 0x00003FFF) (hu : 0x0E010000 ≤ u) :
    Bus.load_halfword bus a =
      BusOut.err (GbaError.InvalidMemoryBusWidth (a - 0x0E000000) 16) ∧
    Bus.store_halfword bus a d =
      BusOut.err (GbaError.InvalidMemoryBusWidth (a - 0x0E000000) 16) ∧
    Bus.load_word bus a =
      BusOut.err (GbaError.InvalidMemoryBusWidth (a - 0x0E000000) 32) ∧
    Bus.store_word bus a d =
      BusOut.err (GbaError.InvalidMemoryBusWidth (a - 0x0E000000) 32) ∧
    Bus.store_byte bus b d = BusOut.err (GbaError.InvalidRomAccess b) ∧
    Bus.store_halfword bus b d = BusOut.err (GbaError.InvalidRomAccess b) ∧
    Bus.store_word bus b d = BusOut.err (GbaError.InvalidRomAccess b) ∧
    Bus.load_byte bus u = BusOut.err (GbaError.InvalidPhysicalAddress u) ∧
    Bus.load_halfword bus u = BusOut.err (GbaError.InvalidPhysicalAddress u) ∧
    Bus.load_word bus u = BusOut.err (GbaError.InvalidPhysicalAddress u) ∧
    Bus.store_byte bus u d = BusOut.err (GbaError.InvalidPhysicalAddress u) ∧
    Bus.store_halfword bus u d = BusOut.err (GbaError.InvalidPhysicalAddress u) ∧
    Bus.store_word bus u d = BusOut.err (GbaError.InvalidPhysicalAddress u) := by
  refine ⟨?_, ?_, ?_, ?_, ?_, ?_, ?_, ?_, ?_, ?_, ?_, ?_, ?_⟩ <;>
    simp [Bus.load_halfword, Bus.store_halfword, Bus.load_word, Bus.store_word,
          Bus.load_byte, Bus.store_byte,
          from_u32_sram ha1 ha2, from_u32_bios hb, from_u32_invalid hu]

/-- Witness for C8 at the addresses `0x0E000004` (SRAM), `0x10` (BIOS)
and `0x12345678` (unmapped). -/
theorem bus_error_payloads_witness :
    0x0E000000 ≤ (0x0E000004 : Nat) ∧ (0x0E000004 : Nat) ≤ 0x0E00FFFF ∧
    (0x10 : Nat) ≤ 0x00003FFF ∧ (0x0E010000 : Nat) ≤ 0x12345678 ∧
    (Bus.load_halfword busZero 0x0E000004 =
       BusOut.err (GbaError.InvalidMemoryBusWidth (0x0E000004 - 0x0E000000) 16) ∧
     Bus.store_halfword busZero 0x0E000004 7 =
       BusOut.err (GbaError.InvalidMemoryBusWidth (0x0E000004 - 0x0E000000) 16) ∧
     Bus.load_word busZero 0x0E000004 =
       BusOut.err (GbaError.InvalidMemoryBusWidth (0x0E000004 - 0x0E000000) 32) ∧
     Bus.store_word busZero 0x0E000004 7 =
       BusOut.err (GbaError.InvalidMemoryBusWidth (0x0E000004 - 0x0E000000) 32) ∧
     Bus.store_byte busZero 0x10 7 = BusOut.err (GbaError.InvalidRomAccess 0x10) ∧
     Bus.store_halfword busZero 0x10 7 = BusOut.err (GbaError.InvalidRomAccess 0x10) ∧
     Bus.store_word busZero 0x10 7 = BusOut.err (GbaError.InvalidRomAccess 0x10) ∧
     Bus.load_byte busZero 0x12345678 =
       BusOut.err (GbaError.InvalidPhysicalAddress 0x12345678) ∧
     Bus.load_halfword busZero 0x12345678 =
       BusOut.err (GbaError.InvalidPhysicalAddress 0x12345678) ∧
     Bus.load_word busZero 0x12345678 =
       BusOut.err (GbaError.InvalidPhysicalAddress 0x12345678) ∧
     Bus.store_byte busZero 0x12345678 7 =
       BusOut.err (GbaError.InvalidPhysicalAddress 0x12345678) ∧
     Bus.store_halfword busZero 0x12345678 7 =
       BusOut.err (GbaError.InvalidPhysicalAddress 0x12345678) ∧
     Bus.store_word busZero 0x12345678 7 =
       BusOut.err (GbaError.InvalidPhysicalAddress 0x12345678)) :=
  ⟨by decide, by decide, by decide, by decide,
   bus_error_payloads busZero 7 0x0E000004 0x10 0x12345678
     (by decide) (by decide) (by decide) (by decide)⟩

/-! ### Claim C6: rotated-immediate operands and the carry-out -/

/-- C6 counterexample: for the raw word `0xE3A01001` (a data-processing
instruction with immediate operand, rotation amount 0) and current carry
flag `true`, the shift-field interpreter returns carry-out `false`, not
the old carry flag. -/
theorem shft_field_immediate_carry_counterexample :
    (ArmInstruction.calculate_shft_field_with_carry
      { raw := 0xE3A01001, op := ArmOpcode.DataProcessing }
      (fun _ => 0) true).2 ≠ true := by
  decide

/-- C6 (amended): for every instruction whose second operand is a rotated
immediate, the shift-field interpreter with carry produces the value
`rotate_right(byte, 2 * rot_amount)` together with a carry-out that is
always `false` (for every rotation amount and every current carry flag). -/
theorem shft_field_immediate_carry_false (i : ArmInstruction)
    (regs : Nat → Nat) (carry : Bool)
    (h : i.is_shift_field_register = false) :
    i.calculate_shft_field_with_carry regs carry =
      (rotr32 (i.raw &&& 0xFF) (2 * ((i.raw >>> 8) &&& 0b1111)), false) := by
  simp [ArmInstruction.calculate_shft_field_with_carry, h,
        ArmInstruction.rotated_immediate]

/-- Witness for C6 at the concrete raw word `0xE3A01001` with carry
flag `true`. -/
theorem shft_field_immediate_carry_false_witness :
    ({ raw := 0xE3A01001, op := ArmOpcode.DataProcessing } :
        ArmInstruction).is_shift_field_register = false ∧
    ArmInstruction.calculate_shft_field_with_carry
        { raw := 0xE3A01001, op := ArmOpcode.DataProcessing } (fun _ => 0) true =
      (rotr32 (0xE3A01001 &&& 0xFF) (2 * ((0xE3A01001 >>> 8) &&& 0b1111)), false) :=
  ⟨by decide,
   shft_field_immediate_carry_false
     { raw := 0xE3A01001, op := ArmOpcode.DataProcessing } (fun _ => 0) true (by decide)⟩

/-! ### Claim C7: the LSR-by-encoded-zero barrel shifter row -/

/-- C7: the immediate shift decoder maps LSR with encoded amount 0 to
`LSR_32`, but the `ArmBSOP`-based barrel shifter evaluates `LSR_32` on
`Rm = 0x80000000` to `(1, false)` instead of the claimed `(0, bit 31)`;
the register-amount path of the same file computes the correct
`(0, true)` for a shift amount of 32, exposing the inconsistency. -/
theorem lsr_32_barrel_shifter_bug :
    ArmBSOP.decode_immediate 1 0 = ArmBSOP.LSR_32 ∧
    alu_barrel_shifter_carry (fun _ => 0) false ArmBSOP.LSR_32 0x80000000 =
      (1, false) ∧
    alu_lsr_reg_carry 0x80000000 32 false = (0, true) := by
  refine ⟨rfl, by decide, by decide⟩

/-! ### Claim C10: the pseudo NOP is a no-op -/

/-- C10: executing the pseudo NOP (raw `0x01A00000`, a conditional
`MOV R0, R0` with condition EQ and the S bit clear) through the ARM-state
executor returns the unchanged CPU state — every register, the CPSR,
every SPSR, the pipeline latches and the bus-attached memory — together
with the non-flushing action, for every CPU state, whether the Z flag is
set (the move executes, rewriting R0 with its own value) or clear (the
condition fails). -/
theorem nop_execute_is_identity (s : Arm7Tdmi) :
    s.execute_arm_state ArmInstruction.nop = ExecOut.act s CpuAction.None := by
  unfold Arm7Tdmi.execute_arm_state
  rw [show ArmInstruction.nop.condition = ArmCondition.EQ from rfl]
  unfold ArmCondition.check
  cases hz : CPSR.Z s.cpsr
  · rfl
  · show ExecOut.act { s with gpr := Function.update s.gpr 0 (s.gpr 0) }
        CpuAction.None = ExecOut.act s CpuAction.None
    rw [Function.update_eq_self]

/-! ### Claim C2: behaviour of `Arm7Tdmi::exception` -/

/-- C2 counterexample: raising Reset on a concrete state leaves the
decoded ARM pipeline latch unchanged — in particular it does not become
the pseudo NOP that a pipeline flush would install — so raising an
exception does not flush the pipeline. -/
theorem exception_no_flush_counterexample :
    (cpu0.exception Exception.Reset).decoded_arm = cpu0.decoded_arm ∧
    cpu0.decoded_arm ≠ ArmInstruction.nop := by
  exact ⟨rfl, by decide⟩

/-- C2 (amended): for every state and exception, `Arm7Tdmi::exception`
switches to the exception's target mode, saves the old CPSR into the new
mode's SPSR, forces the state to ARM (both the state field and CPSR
bit 5), sets the CPSR IRQ-disable bit, sets the FIQ-disable bit exactly
for Reset and FastInterrupt (leaving it unchanged otherwise), and sets PC
to four times the exception's index; the four pipeline latches are left
unchanged (no pipeline flush is performed). -/
theorem exception_entry_behaviour (s : Arm7Tdmi) (ex : Exception) :
    (s.exception ex).mode = ex.mode_on_entry ∧
    (s.exception ex).spsr ex.mode_on_entry.idx = s.cpsr ∧
    (s.exception ex).state = State.ARM ∧
    CPSR.state (s.exception ex).cpsr = State.ARM ∧
    CPSR.irqDisabled (s.exception ex).cpsr = true ∧
    CPSR.fiqDisabled (s.exception ex).cpsr =
      (if ex.disable_fiq_on_entry then true else CPSR.fiqDisabled s.cpsr) ∧
    (s.exception ex).gpr 15 = 4 * ex.index ∧
    (s.exception ex).decoded_arm = s.decoded_arm ∧
    (s.exception ex).fetched_arm = s.fetched_arm ∧
    (s.exception ex).decoded_thumb = s.decoded_thumb ∧
    (s.exception ex).fetched_thumb = s.fetched_thumb := by
  have t1 : Nat.testBit 4294967264 6 = true := by decide
  have t2 : Nat.testBit 4294967263 6 = true := by decide
  have t3 : Nat.testBit 128 6 = false := by decide
  cases hf : ex.disable_fiq_on_entry <;>
    refine ⟨?_, ?_, ?_, ?_, ?_, ?_, ?_, ?_, ?_, ?_, ?_⟩ <;>
    simp +decide [Arm7Tdmi.exception, Arm7Tdmi.change_mode, hf, CPSR.setState,
      CPSR.setMode, CPSR.disableIrq, CPSR.disableFiq, irqDisabled_testBit,
      fiqDisabled_testBit, state_testBit, State.toBits, Nat.testBit_lor,
      Nat.testBit_land, as_bits_testBit_ge5, Function.update_same,
      Exception.vector_address, Nat.mul_comm, t1, t2, t3]

/-! ### Claim C3: the mode-change round trip -/

/-- C3 counterexample: starting from User mode with `R14 = 1` and
`PC = 0`, switching User→IRQ→User leaves `R14 = 0` (the PC), not its
original value `1`: the mode-change routine overwrites R14 with the
return address. -/
theorem change_mode_r14_counterexample :
    ((cpuR14one.change_mode Mode.IRQ).change_mode Mode.User).gpr 14 = 0 ∧
    cpuR14one.gpr 14 = 1 := by
  constructor <;> decide

/-- C3 (amended): for every state whose mode A and every target mode B,
with A and B distinct and neither equal to FIQ, switching A→B→A leaves
R8 through R13 (and PC) with exactly their original values — R13 is
restored through the per-mode banks and R8..R12 are never touched by
non-FIQ switches — while R14 ends up holding the PC, because the routine
records the return address into R14 on every switch. -/
theorem change_mode_roundtrip (s : Arm7Tdmi) (B : Mode)
    (hA : s.mode ≠ Mode.FIQ) (hB : B ≠ Mode.FIQ) (hAB : s.mode ≠ B) :
    ((s.change_mode B).change_mode s.mode).gpr 8 = s.gpr 8 ∧
    ((s.change_mode B).change_mode s.mode).gpr 9 = s.gpr 9 ∧
    ((s.change_mode B).change_mode s.mode).gpr 10 = s.gpr 10 ∧
    ((s.change_mode B).change_mode s.mode).gpr 11 = s.gpr 11 ∧
    ((s.change_mode B).change_mode s.mode).gpr 12 = s.gpr 12 ∧
    ((s.change_mode B).change_mode s.mode).gpr 13 = s.gpr 13 ∧
    ((s.change_mode B).change_mode s.mode).gpr 14 = s.gpr 15 ∧
    ((s.change_mode B).change_mode s.mode).gpr 15 = s.gpr 15 := by
  have hidx : s.mode.idx ≠ B.idx := mode_idx_injective hAB
  have hidx' : B.idx ≠ s.mode.idx := mode_idx_injective (Ne.symm hAB)
  refine ⟨?_, ?_, ?_, ?_, ?_, ?_, ?_, ?_⟩ <;>
    simp +decide [Arm7Tdmi.change_mode, hA, hB,
      Function.update_same, Function.update_noteq, hidx, hidx']

/-- Witness for C3 with the concrete state `cpuR14one` (User mode) and
target mode IRQ. -/
theorem change_mode_roundtrip_witness :
    cpuR14one.mode ≠ Mode.FIQ ∧ Mode.IRQ ≠ Mode.FIQ ∧ cpuR14one.mode ≠ Mode.IRQ ∧
    (((cpuR14one.change_mode Mode.IRQ).change_mode cpuR14one.mode).gpr 8 =
        cpuR14one.gpr 8 ∧
     ((cpuR14one.change_mode Mode.IRQ).change_mode cpuR14one.mode).gpr 9 =
        cpuR14one.gpr 9 ∧
     ((cpuR14one.change_mode Mode.IRQ).change_mode cpuR14one.mode).gpr 10 =
        cpuR14one.gpr 10 ∧
     ((cpuR14one.change_mode Mode.IRQ).change_mode cpuR14one.mode).gpr 11 =
        cpuR14one.gpr 11 ∧
     ((cpuR14one.change_mode Mode.IRQ).change_mode cpuR14one.mode).gpr 12 =
        cpuR14one.gpr 12 ∧
     ((cpuR14one.change_mode Mode.IRQ).change_mode cpuR14one.mode).gpr 13 =
        cpuR14one.gpr 13 ∧
     ((cpuR14one.change_mode Mode.IRQ).change_mode cpuR14one.mode).gpr 14 =
        cpuR14one.gpr 15 ∧
     ((cpuR14one.change_mode Mode.IRQ).change_mode cpuR14one.mode).gpr 15 =
        cpuR14one.gpr 15) :=
  ⟨by decide, by decide, by decide,
   change_mode_roundtrip cpuR14one Mode.IRQ (by decide) (by decide) (by decide)⟩

end GBArs
